import Mathlib

/-!
Verification of the backtest-visualizer frontend (frontend/src/App.jsx).

The embedding models the pure data pipeline of the chart-update effect:
validation/normalization of signal and trade records into chart points and
markers, the chart-state update, the run-selection state transitions, the
time-scale synchronizer callback, and the metric formatter.

Conventions of the embedding:
- A record field that arrives as a JS number-or-null-or-NaN is a `JNum`.
- A record timestamp is carried as its parse result `new Date(ts).getTime()`:
  `some n` for a successful parse to epoch-millisecond `n`, `none` for `NaN`
  (unparsable input). JS truthiness of the parsed value (`0` and `NaN` are
  falsy) is `tsTruthy`. A raw-falsy timestamp (`null`, `""`) always parses to
  `0` ms or `NaN`, so the extra raw truthiness check in the trade filter is
  subsumed by `tsTruthy` of the parse result.
- JS machine floats are modelled as exact rationals; every numeric literal of
  the claims is exactly representable at the precision the claims use, and
  12.345 rounds to the same 2-decimal string under the double semantics
  (the nearest double is 12.34500000000000063..., above the tie) as under
  the exact rational with the tie-goes-up rule of `toFixed`.
-/

namespace Backtest

/-- A numeric JS field as received in a JSON record: `null`/`undefined`,
`NaN` (or a non-numeric value), or a finite number. -/
inductive JNum where
  | null : JNum
  | nan : JNum
  | num : ℚ → JNum
deriving DecidableEq

/-- The check `x != null && !isNaN(x)` on a `JNum` field. -/
def JNum.isValidNum : JNum → Bool
  | .num _ => true
  | _ => false

/-- `Number(x)`, used only on fields that passed `isValidNum`. -/
def JNum.toQ : JNum → ℚ
  | .num q => q
  | _ => 0

/-- JS truthiness of the parsed timestamp `new Date(ts).getTime()`:
`NaN` (modelled `none`) and `0` are falsy, every other number is truthy. -/
def tsTruthy : Option ℤ → Bool
  | none => false
  | some n => n != 0

/-- `new Date(ts).getTime() / 1000`: epoch seconds of a parsed timestamp.
Only ever used on records whose timestamp passed `tsTruthy`. -/
def epochSec : Option ℤ → ℚ
  | none => 0
  | some n => (n : ℚ) / 1000

/-- One element of the `/signals/{run_id}` response. `timestamp` is the
parsed epoch-millisecond value (see module header), `signal` is -1, 0 or 1. -/
structure SignalRec where
  timestamp : Option ℤ
  price : JNum
  rsi : JNum
  signal : ℤ
deriving DecidableEq

/-- One element of the `/trades/{run_id}` response. A `null` string field is
modelled as `""` (both are JS-falsy). -/
structure TradeRec where
  timestamp : Option ℤ
  action : String
  reason : String
  price : JNum
deriving DecidableEq

/-- A chart-ready point `{time, value}` fed to a line series. -/
structure ChartPoint where
  time : ℚ
  value : ℚ
deriving DecidableEq

/-- A chart marker `{time, position, color, shape, text}`. -/
structure Marker where
  time : ℚ
  position : String
  color : String
  shape : String
  text : String
deriving DecidableEq

/-- Filter of the `priceData` pipeline:
`s.price != null && !isNaN(s.price) && new Date(s.timestamp).getTime()`. -/
def priceValid (s : SignalRec) : Bool :=
  s.price.isValidNum && tsTruthy s.timestamp

/-- `priceData`: valid records mapped to `{time: getTime()/1000, value: Number(price)}`,
in input order (App.jsx lines 213-222). -/
def priceData (signals : List SignalRec) : List ChartPoint :=
  (signals.filter priceValid).map fun s => ⟨epochSec s.timestamp, s.price.toQ⟩

/-- Filter of the `rsiData` pipeline:
`s.rsi != null && !isNaN(s.rsi) && new Date(s.timestamp).getTime()`. -/
def rsiValid (s : SignalRec) : Bool :=
  s.rsi.isValidNum && tsTruthy s.timestamp

/-- `rsiData`: valid records mapped to `{time, value: Number(rsi)}`
(App.jsx lines 224-233). -/
def rsiData (signals : List SignalRec) : List ChartPoint :=
  (signals.filter rsiValid).map fun s => ⟨epochSec s.timestamp, s.rsi.toQ⟩

/-- The BUY marker built from a signal record (App.jsx lines 237-243). -/
def mkBuyMarker (s : SignalRec) : Marker :=
  ⟨epochSec s.timestamp, "belowBar", "green", "arrowUp", "BUY"⟩

/-- The SELL marker built from a signal record (App.jsx lines 247-253). -/
def mkSellMarker (s : SignalRec) : Marker :=
  ⟨epochSec s.timestamp, "aboveBar", "red", "arrowDown", "SELL"⟩

/-- Filter of the `buySignals` pipeline:
`s.signal === 1 && s.price != null && !isNaN(s.price) && new Date(s.timestamp).getTime()`. -/
def buyValid (s : SignalRec) : Bool :=
  s.signal == 1 && s.price.isValidNum && tsTruthy s.timestamp

/-- `buySignals` (App.jsx lines 235-243). -/
def buySignals (signals : List SignalRec) : List Marker :=
  (signals.filter buyValid).map mkBuyMarker

/-- Filter of the `sellSignals` pipeline: as `buyValid` with `s.signal === -1`. -/
def sellValid (s : SignalRec) : Bool :=
  s.signal == -1 && s.price.isValidNum && tsTruthy s.timestamp

/-- `sellSignals` (App.jsx lines 245-253). -/
def sellSignals (signals : List SignalRec) : List Marker :=
  (signals.filter sellValid).map mkSellMarker

/-- The JS stable sort `arr.sort((a, b) => a.time - b.time)`, modelled as the
(stable) insertion sort by time; any two stable sorts under the same total
preorder agree, so this is extensionally the Array.prototype.sort output. -/
def sortByTime (l : List Marker) : List Marker :=
  l.insertionSort fun a b => a.time ≤ b.time

/-- `signalMarkers = [...buySignals, ...sellSignals].sort((a, b) => a.time - b.time)`
(App.jsx line 271). -/
def signalMarkers (signals : List SignalRec) : List Marker :=
  sortByTime (buySignals signals ++ sellSignals signals)

/-- `['Buy', 'Cover'].includes(t.action)`. -/
def isBuyOrCover (a : String) : Bool :=
  a == "Buy" || a == "Cover"

/-- Filter of the `tradeMarkers` pipeline (App.jsx line 258):
`t.timestamp && t.action && t.reason && t.price != null && !isNaN(t.price)
&& new Date(t.timestamp).getTime()`; the raw-string truthiness of
`t.timestamp` is subsumed by `tsTruthy` of the parse (module header). -/
def tradeValid (t : TradeRec) : Bool :=
  (t.action != "") && (t.reason != "") && t.price.isValidNum && tsTruthy t.timestamp

/-- The marker built from a valid trade record (App.jsx lines 262-268),
including the `t.reason || 'Trade'` fallback. -/
def tradeMarker (t : TradeRec) : Marker :=
  ⟨epochSec t.timestamp,
   if isBuyOrCover t.action then "belowBar" else "aboveBar",
   if isBuyOrCover t.action then "green" else "red",
   "circle",
   if t.reason != "" then t.reason else "Trade"⟩

/-- `tradeMarkers` (App.jsx lines 256-268); not sorted. -/
def tradeMarkers (trades : List TradeRec) : List Marker :=
  (trades.filter tradeValid).map tradeMarker

/-- Strictly-increasing-in-time predicate on a point series. -/
def chronological (l : List ChartPoint) : Prop :=
  List.Chain' (fun a b => a.time < b.time) l

instance : DecidablePred chronological := fun l =>
  inferInstanceAs (Decidable (List.Chain' _ l))

/-- The data and markers currently attached to one pane series ref. -/
structure PaneSeries where
  data : List ChartPoint
  markers : List Marker
deriving DecidableEq

/-- The three series refs (`priceSeriesRef`, `tradeSeriesRef`, `rsiSeriesRef`);
`none` models a null ref (series removed or never created). -/
structure ChartState where
  priceSeries : Option PaneSeries
  tradeSeries : Option PaneSeries
  rsiSeries : Option PaneSeries
deriving DecidableEq

/-- All three series refs nulled, as after the removal block at the top of the
chart-update effect (App.jsx lines 199-210). -/
def clearedCharts : ChartState := ⟨none, none, none⟩

/-- The message passed to `setError` when the update effect catches the
`'No valid price data to display.'` throw (App.jsx lines 281, 331). -/
def noDataError : String := "Failed to update charts: No valid price data to display."

/-- The chart-update effect (App.jsx lines 195-334) as a pure transition on
the series-ref state, returning the new state and the error surfaced via
`setError` (if any). The `signals.length > 0` guard skips the whole body; a
non-empty input first nulls the refs, then derives the series, and throws
(caught into the error) when `priceData` is empty, leaving the refs nulled.
Chart instances are assumed initialized. -/
def updateCharts (signals : List SignalRec) (trades : List TradeRec)
    (st : ChartState) : ChartState × Option String :=
  if signals.length > 0 then
    let pd := priceData signals
    if pd.length = 0 then
      (clearedCharts, some noDataError)
    else
      (⟨some ⟨pd, signalMarkers signals⟩,
        some ⟨pd, tradeMarkers trades⟩,
        some ⟨rsiData signals, []⟩⟩, none)
  else
    (st, none)

/-- The fetched per-run state of the app (`signals`, `trades`, `metrics`,
`finalPortfolioValue`, `error`). Metrics are a flat key/value mapping. -/
structure AppState where
  signals : List SignalRec
  trades : List TradeRec
  metrics : Option (List (String × Option ℚ))
  finalPortfolioValue : Option ℚ
  error : Option String
deriving DecidableEq

/-- The fully cleared per-run state (App.jsx lines 111-116). -/
def clearedApp : AppState := ⟨[], [], none, none, none⟩

/-- The synchronous body of the `[selectedRunId]` effect (App.jsx lines
58-118): a truthy run id only issues the four fetches (external, no state
change yet); an empty id clears everything. -/
def selectRunEffect (selectedRunId : String) (st : AppState) : AppState :=
  if selectedRunId != "" then st else clearedApp

/-- Resolution of the `/signals` fetch (App.jsx lines 63-67). -/
def applySignalsResponse (d : List SignalRec) (st : AppState) : AppState :=
  { st with signals := d, error := none }

/-- Resolution of the `/trades` fetch (App.jsx lines 76-79). -/
def applyTradesResponse (d : List TradeRec) (st : AppState) : AppState :=
  { st with trades := d }

/-- One of the three chart panes. -/
inductive Pane where
  | price : Pane
  | trade : Pane
  | rsi : Pane
deriving DecidableEq

/-- A visible logical range `{from, to}` of a time scale (field names
renamed, `from` being reserved). -/
structure LogicalRange where
  rangeFrom : ℚ
  rangeTo : ℚ
deriving DecidableEq

/-- State of the three panes' time scales plus the `isUpdatingTimeScale`
guard ref. -/
structure SyncState where
  priceRange : Option LogicalRange
  tradeRange : Option LogicalRange
  rsiRange : Option LogicalRange
  propagating : Bool
deriving DecidableEq

/-- `chart.timeScale().getVisibleLogicalRange()` for a pane (`none` = null). -/
def SyncState.range (st : SyncState) : Pane → Option LogicalRange
  | .price => st.priceRange
  | .trade => st.tradeRange
  | .rsi => st.rsiRange

/-- `chart.timeScale().setVisibleLogicalRange(r)` on a pane. -/
def SyncState.setRange (st : SyncState) (p : Pane) (r : LogicalRange) : SyncState :=
  match p with
  | .price => { st with priceRange := some r }
  | .trade => { st with tradeRange := some r }
  | .rsi => { st with rsiRange := some r }

/-- The target list each pane is wired to (App.jsx lines 169-171). -/
def Pane.others : Pane → List Pane
  | .price => [.trade, .rsi]
  | .trade => [.price, .rsi]
  | .rsi => [.price, .trade]

/-- The `targetCharts.forEach` loop applying the range to each target in
order. `fails t = true` models `setVisibleLogicalRange` throwing on pane `t`;
the throw aborts the loop, and the returned flag is `false` when a throw
escaped. -/
def applyToTargets (fails : Pane → Bool) (r : LogicalRange) :
    List Pane → SyncState → SyncState × Bool
  | [], st => (st, true)
  | t :: ts, st =>
    if fails t then (st, false)
    else applyToTargets fails r ts (st.setRange t r)

/-- The `subscribeVisibleTimeRangeChange` callback installed by
`syncTimeScales` (App.jsx lines 155-167), for source pane `src`. Returns the
resulting state and `true` when the callback ran to completion (`false` when
a target update threw; the code has no try/finally, so on that path the
trailing `isUpdatingTimeScale.current = false` line never runs). -/
def handleRangeChange (fails : Pane → Bool) (src : Pane) (st : SyncState) :
    SyncState × Bool :=
  if st.propagating then (st, true)
  else
    let st1 : SyncState := { st with propagating := true }
    match st1.range src with
    | some r =>
      match applyToTargets fails r src.others st1 with
      | (st2, true) => ({ st2 with propagating := false }, true)
      | (st2, false) => (st2, false)
    | none => ({ st1 with propagating := false }, true)

/-- A JS value returned by `formatMetric`: a string or a number (the default
branch returns `Math.round(value)`, a number). -/
inductive JsOut where
  | str : String → JsOut
  | num : ℤ → JsOut
deriving DecidableEq

/-- Whether a `formatMetric` result is a string. -/
def JsOut.isStr : JsOut → Bool
  | .str _ => true
  | .num _ => false

/-- `Math.round(q)`: round to nearest, half toward positive infinity. -/
def jsRound (q : ℚ) : ℤ := ⌊q + 1/2⌋

/-- Render `m` hundredths as a 2-decimal string, e.g. `1235 ↦ "12.35"`. -/
def fixed2Nat (m : ℕ) : String :=
  toString (m / 100) ++ "." ++
    (if m % 100 < 10 then "0" ++ toString (m % 100) else toString (m % 100))

/-- `Number(q).toFixed(2)`: nearest 2-decimal string, ties toward the larger
candidate; negative values render as the sign plus the rendering of the
absolute value (ECMA ToFixed). -/
def toFixed2 (q : ℚ) : String :=
  if q < 0 then "-" ++ fixed2Nat ⌊-q * 100 + 1/2⌋.toNat
  else fixed2Nat ⌊q * 100 + 1/2⌋.toNat

/-- `formatMetric` (App.jsx lines 337-355). `toLocale` abstracts the
environment-dependent `new Date(value).toLocaleString()`; `none` is a
`null`/`undefined` value. -/
def formatMetric (toLocale : ℚ → String) (value : Option ℚ) (key : String) : JsOut :=
  match value with
  | none => .str "N/A"
  | some v =>
    if key == "max_drawdown_start" || key == "max_drawdown_end" then
      .str (toLocale v)
    else if key == "annualized_return" || key == "max_drawdown" || key == "win_rate" then
      .str (toFixed2 v ++ "%")
    else if key == "sharpe_ratio" || key == "sortino_ratio"
        || key == "calmar_ratio" || key == "profit_factor" then
      .str (toFixed2 v)
    else if key == "avg_trade_duration" then
      .str (toFixed2 v ++ " min")
    else if key == "final_portfolio_value" then
      .str ("₹" ++ toFixed2 v)
    else
      .num (jsRound v)

/-- The keys of the `metricDisplay` table (App.jsx lines 358-371). -/
def declaredMetricKeys : List String :=
  ["final_portfolio_value", "annualized_return", "max_drawdown",
   "max_drawdown_start", "max_drawdown_end", "win_rate", "sharpe_ratio",
   "sortino_ratio", "calmar_ratio", "profit_factor", "total_trades",
   "avg_trade_duration"]

/-! Claim-side (specification-worded) marker builders, for the refinement
comparison of the signal-marker claim: one BUY marker per record with
`signal = 1` and one SELL marker per record with `signal = -1`, subject only
to the timestamp-validity rule of series normalization. -/

/-- BUY markers as worded by the claim: filtered by `signal = 1` and
timestamp validity alone. -/
def claimBuyMarkers (signals : List SignalRec) : List Marker :=
  (signals.filter fun s => s.signal == 1 && tsTruthy s.timestamp).map mkBuyMarker

/-- SELL markers as worded by the claim: filtered by `signal = -1` and
timestamp validity alone. -/
def claimSellMarkers (signals : List SignalRec) : List Marker :=
  (signals.filter fun s => s.signal == -1 && tsTruthy s.timestamp).map mkSellMarker

/-- BUY markers as in the amended claim: the filter additionally requires the
record price to be present and numeric, as in the `buySignals` pipeline. -/
def amendedBuyMarkers (signals : List SignalRec) : List Marker :=
  (signals.filter fun s =>
    s.signal == 1 && s.price.isValidNum && tsTruthy s.timestamp).map mkBuyMarker

/-- SELL markers as in the amended claim. -/
def amendedSellMarkers (signals : List SignalRec) : List Marker :=
  (signals.filter fun s =>
    s.signal == -1 && s.price.isValidNum && tsTruthy s.timestamp).map mkSellMarker

/-! Concrete records and states used by witnesses and counterexamples. -/

/-- A fully valid signal record at 60000 ms with no buy/sell flag. -/
def demoSigOK : SignalRec := ⟨some 60000, .num 100, .num 50, 0⟩

/-- A signal record with a valid timestamp but a null price: it passes no
price-dependent filter, so a list holding only it yields an empty `priceData`. -/
def demoSigBad : SignalRec := ⟨some 60000, .null, .num 50, 0⟩

/-- A valid trade record. -/
def demoTradeRec : TradeRec := ⟨some 60000, "Buy", "RSI < 30", .num 100⟩

/-- Prior non-empty pane state, to observe whether a refresh changes it. -/
def demoPanes : ChartState :=
  ⟨some ⟨[⟨60, 100⟩], []⟩, some ⟨[⟨60, 100⟩], []⟩, some ⟨[⟨60, 50⟩], []⟩⟩

/-- Two valid signal records sharing the same timestamp (60000 ms). -/
def dupSigA : SignalRec := ⟨some 60000, .num 1, .null, 0⟩

/-- Second record with the duplicate timestamp. -/
def dupSigB : SignalRec := ⟨some 60000, .num 2, .null, 0⟩

/-- A signal record of run R1. -/
def demoR1Sig : SignalRec := ⟨some 60000, .num 1, .num 10, 0⟩

/-- A signal record of run R2. -/
def demoR2Sig : SignalRec := ⟨some 120000, .num 2, .num 20, 0⟩

/-- A trade record of run R1. -/
def demoR1Trade : TradeRec := ⟨some 60000, "Buy", "entry", .num 1⟩

/-- App state holding run R1's fetched data. -/
def demoAppR1 : AppState :=
  ⟨[demoR1Sig], [demoR1Trade], some [("total_trades", some 3)], some 1000, none⟩

/-- A visible logical range. -/
def demoRange : LogicalRange := ⟨0, 10⟩

/-- A second, different visible logical range. -/
def demoRange2 : LogicalRange := ⟨2, 5⟩

/-- Sync state with the guard down and all panes holding a range; the price
pane holds `demoRange`, the other two `demoRange2`. -/
def demoSyncReady : SyncState := ⟨some demoRange, some demoRange2, some demoRange2, false⟩

/-- Failure model where applying a range to the trade pane throws. -/
def demoFails : Pane → Bool
  | .trade => true
  | _ => false

/-- Failure model where every target update succeeds. -/
def noFails : Pane → Bool := fun _ => false

/-- A signal record with `signal = 1`, a valid timestamp, but a null price. -/
def c6Sig : SignalRec := ⟨some 60000, .null, .num 50, 1⟩

/-- A concrete stand-in for the environment-dependent locale renderer. -/
def demoLocale : ℚ → String := fun _ => ""

/-- A signal record whose timestamp parses exactly to the Unix epoch. -/
def epochSig : SignalRec := ⟨some 0, .num 1, .num 2, 1⟩

/-- A trade record whose timestamp parses exactly to the Unix epoch. -/
def epochTrade : TradeRec := ⟨some 0, "Buy", "entry", .num 1⟩

instance : IsTotal Marker fun a b => a.time ≤ b.time :=
  ⟨fun a b => le_total a.time b.time⟩

instance : IsTrans Marker fun a b => a.time ≤ b.time :=
  ⟨fun _ _ _ hab hbc => le_trans hab hbc⟩

/-! Theorems -/

theorem toFixed2_sharpe : toFixed2 (12.345 : ℚ) = "12.35" := by
  unfold toFixed2
  rw [if_neg (by norm_num)]
  have h : ⌊(12.345 : ℚ) * 100 + 1/2⌋ = 1235 := by norm_num
  rw [h]
  decide

theorem toFixed2_five : toFixed2 (5 : ℚ) = "5.00" := by
  unfold toFixed2
  rw [if_neg (by norm_num)]
  have h : ⌊(5 : ℚ) * 100 + 1/2⌋ = 500 := by norm_num
  rw [h]
  decide

theorem toFixed2_thousand : toFixed2 (1000 : ℚ) = "1000.00" := by
  unfold toFixed2
  rw [if_neg (by norm_num)]
  have h : ⌊(1000 : ℚ) * 100 + 1/2⌋ = 100000 := by norm_num
  rw [h]
  decide

/-- C8: the metric formatter returns the sentinel string "N/A" for a null
value under every key, overriding all per-key rules, and satisfies the three
concrete equations of the claim: 12.345 under sharpe_ratio renders as
"12.35", 5 under win_rate as "5.00%", and 1000 under final_portfolio_value
as "₹1000.00". -/
theorem format_metric_values :
    (∀ (toLocale : ℚ → String) (k : String),
      formatMetric toLocale none k = .str "N/A") ∧
    (∀ toLocale : ℚ → String,
      formatMetric toLocale (some 12.345) "sharpe_ratio" = .str "12.35") ∧
    (∀ toLocale : ℚ → String,
      formatMetric toLocale (some 5) "win_rate" = .str "5.00%") ∧
    (∀ toLocale : ℚ → String,
      formatMetric toLocale (some 1000) "final_portfolio_value" = .str "₹1000.00") := by
  refine ⟨fun _ _ => rfl, fun f => ?_, fun f => ?_, fun f => ?_⟩
  · have h : formatMetric f (some 12.345) "sharpe_ratio" = .str (toFixed2 12.345) := rfl
    rw [h, toFixed2_sharpe]
  · have h : formatMetric f (some 5) "win_rate" = .str (toFixed2 5 ++ "%") := rfl
    rw [h, toFixed2_five]
    rfl
  · have h : formatMetric f (some 1000) "final_portfolio_value"
        = .str ("₹" ++ toFixed2 1000) := rfl
    rw [h, toFixed2_thousand]
    rfl

/-- C9 counterexample: on a declared key outside the listed families
(total_trades), `formatMetric` returns the rounded value as a raw JS number,
not a string, so the claim that it returns a string for every declared key
fails at this input. -/
theorem format_default_not_string :
    formatMetric demoLocale (some 5) "total_trades" = JsOut.num 5 ∧
    (formatMetric demoLocale (some 5) "total_trades").isStr = false := by
  have h : formatMetric demoLocale (some 5) "total_trades" = .num (jsRound 5) := rfl
  have h2 : jsRound (5 : ℚ) = 5 := by
    unfold jsRound
    norm_num
  rw [h, h2]
  exact ⟨rfl, rfl⟩

/-- C9 amended: `formatMetric` is total over the declared key set and pure by
construction; it returns a string for every declared key except those outside
the listed families (total_trades), for which it returns the value rounded to
the nearest integer (half toward positive infinity) as a raw number. -/
theorem format_metric_defaults (toLocale : ℚ → String) (v : ℚ) (k : String)
    (hk : k ∈ declaredMetricKeys) :
    (formatMetric toLocale (some v) k).isStr = (k != "total_trades") ∧
    formatMetric toLocale (some v) "total_trades" = .num (jsRound v) := by
  refine ⟨?_, rfl⟩
  fin_cases hk <;> rfl

/-- C9 witness: the amended theorem instantiated at a concrete declared key
and value. -/
theorem format_metric_defaults_witness :
    (formatMetric demoLocale (some 5) "win_rate").isStr
      = ("win_rate" != "total_trades") :=
  (format_metric_defaults demoLocale 5 "win_rate" (by decide)).1

/-- C7: every trade record passing the validity filter yields a marker with
shape circle, text equal to the record reason (the "Trade" fallback is
unreachable, since validity requires a truthy reason), position belowBar and
color green when the action is Buy or Cover, and position aboveBar and color
red otherwise. -/
theorem trade_marker_shape (t : TradeRec) (h : tradeValid t = true) :
    (tradeMarker t).shape = "circle" ∧
    (tradeMarker t).text = t.reason ∧
    (isBuyOrCover t.action = true →
      (tradeMarker t).position = "belowBar" ∧ (tradeMarker t).color = "green") ∧
    (isBuyOrCover t.action = false →
      (tradeMarker t).position = "aboveBar" ∧ (tradeMarker t).color = "red") := by
  simp only [tradeValid, Bool.and_eq_true, bne_iff_ne, ne_eq] at h
  obtain ⟨⟨⟨ha, hr⟩, hp⟩, ht⟩ := h
  refine ⟨rfl, ?_, fun hb => ?_, fun hb => ?_⟩
  · simp [tradeMarker, hr]
  · simp [tradeMarker, hb]
  · simp [tradeMarker, hb]

/-- C7 witness: the trade-marker theorem at a concrete valid trade. -/
theorem trade_marker_shape_witness :
    (tradeMarker demoTradeRec).text = demoTradeRec.reason :=
  (trade_marker_shape demoTradeRec (by decide)).2.1

/-- C6 counterexample: a record with `signal = 1`, a valid timestamp, but a
null price is dropped by the code (the `buySignals` filter also requires a
valid price), while the claim-worded marker set, filtered by the
timestamp-validity rule alone, keeps it — so the claimed equality fails. -/
theorem signal_marker_missing_price_dropped :
    signalMarkers [c6Sig] = [] ∧
    sortByTime (claimBuyMarkers [c6Sig] ++ claimSellMarkers [c6Sig])
      = [mkBuyMarker c6Sig] ∧
    signalMarkers [c6Sig]
      ≠ sortByTime (claimBuyMarkers [c6Sig] ++ claimSellMarkers [c6Sig]) := by
  refine ⟨rfl, rfl, ?_⟩
  intro h
  rw [show sortByTime (claimBuyMarkers [c6Sig] ++ claimSellMarkers [c6Sig])
      = [mkBuyMarker c6Sig] from rfl] at h
  exact List.noConfusion h

/-- C6 amended: the derived signal marker set equals the ascending-by-time
stable sort of the union of BUY and SELL markers, where each marker filter
additionally requires the record price to be present and numeric (as the
series normalization of priceSeries does); and the result is sorted
ascending by time. -/
theorem signal_markers_union_sorted (signals : List SignalRec) :
    signalMarkers signals
      = sortByTime (amendedBuyMarkers signals ++ amendedSellMarkers signals) ∧
    List.Sorted (fun a b : Marker => a.time ≤ b.time) (signalMarkers signals) := by
  refine ⟨rfl, ?_⟩
  exact List.sorted_insertionSort _ _

/-- C10: a record whose timestamp parses exactly to the Unix epoch (0 ms) is
JS-falsy under the truthiness-based validity check, hence classified invalid
and dropped from `priceData`, `rsiData`, both signal marker pipelines, and
`tradeMarkers`, even though its timestamp is parseable. -/
theorem epoch_zero_timestamp_dropped (s : SignalRec) (t : TradeRec)
    (l1 l2 : List SignalRec) (m1 m2 : List TradeRec)
    (hs : s.timestamp = some 0) (ht : t.timestamp = some 0) :
    priceValid s = false ∧ rsiValid s = false ∧
    buyValid s = false ∧ sellValid s = false ∧ tradeValid t = false ∧
    priceData (l1 ++ s :: l2) = priceData (l1 ++ l2) ∧
    rsiData (l1 ++ s :: l2) = rsiData (l1 ++ l2) ∧
    signalMarkers (l1 ++ s :: l2) = signalMarkers (l1 ++ l2) ∧
    tradeMarkers (m1 ++ t :: m2) = tradeMarkers (m1 ++ m2) := by
  have hps : priceValid s = false := by simp [priceValid, tsTruthy, hs]
  have hrs : rsiValid s = false := by simp [rsiValid, tsTruthy, hs]
  have hbs : buyValid s = false := by simp [buyValid, tsTruthy, hs]
  have hss : sellValid s = false := by simp [sellValid, tsTruthy, hs]
  have hts : tradeValid t = false := by simp [tradeValid, tsTruthy, ht]
  refine ⟨hps, hrs, hbs, hss, hts, ?_, ?_, ?_, ?_⟩
  · simp [priceData, List.filter_append, List.filter_cons, hps]
  · simp [rsiData, List.filter_append, List.filter_cons, hrs]
  · simp [signalMarkers, buySignals, sellSignals, List.filter_append,
      List.filter_cons, hbs, hss]
  · simp [tradeMarkers, List.filter_append, List.filter_cons, hts]

/-- C10 witness: the epoch-zero record is concretely invalid for the price
series. -/
theorem epoch_zero_timestamp_dropped_witness :
    priceValid epochSig = false :=
  (epoch_zero_timestamp_dropped epochSig epochTrade [] [demoR1Sig] [] []
    rfl rfl).1

/-- C1 counterexample: a well-formed but empty signals response makes the
refresh effect skip its whole body behind the `signals.length > 0` guard —
no error is surfaced (contradicting the claimed NoDisplayableData), while
the prior pane state is indeed left unchanged. -/
theorem chart_refresh_empty_skip :
    updateCharts [] [demoTradeRec] demoPanes = (demoPanes, none) ∧
    demoPanes.priceSeries ≠ none := by
  refine ⟨rfl, ?_⟩
  intro h
  exact Option.noConfusion h

/-- C1 amended: an empty signals list skips the refresh entirely (no error,
state unchanged); the user-visible error is raised exactly when the signals
list is non-empty but yields an empty priceSeries, and on that path the
prior series have already been removed, leaving the panes cleared rather
than unchanged; this is the sole error condition of the pane update. -/
theorem chart_refresh_error_conditions (signals : List SignalRec)
    (trades : List TradeRec) (st : ChartState) :
    (signals = [] → updateCharts signals trades st = (st, none)) ∧
    ((updateCharts signals trades st).2 ≠ none ↔
      signals ≠ [] ∧ priceData signals = []) ∧
    (signals ≠ [] → priceData signals = [] →
      updateCharts signals trades st = (clearedCharts, some noDataError)) := by
  refine ⟨?_, ?_, ?_⟩
  · intro h
    subst h
    rfl
  · by_cases h : signals = []
    · subst h
      simp [updateCharts]
    · have hl : signals.length > 0 := List.length_pos.mpr h
      by_cases hp : priceData signals = []
      · simp [updateCharts, hl, List.length_eq_zero.mpr hp, h, hp, noDataError]
      · have hpl : (priceData signals).length ≠ 0 :=
          fun hc => hp (List.length_eq_zero.mp hc)
        simp [updateCharts, hl, hpl, h, hp]
  · intro h hp
    have hl : signals.length > 0 := List.length_pos.mpr h
    simp [updateCharts, hl, List.length_eq_zero.mpr hp]

/-- C1 witness: the amended theorem at a non-empty signals list whose single
record has a null price, so the derived priceSeries is empty. -/
theorem chart_refresh_error_conditions_witness :
    updateCharts [demoSigBad] [] demoPanes = (clearedCharts, some noDataError) :=
  (chart_refresh_error_conditions [demoSigBad] [] demoPanes).2.2
    (by intro h; exact List.noConfusion h) rfl

/-- C2 counterexample: two valid records sharing one timestamp both survive
normalization — the derived priceSeries keeps both points (length 2) and is
not strictly increasing in time, so the claimed drop of duplicate
timestamps does not happen. -/
theorem dup_timestamp_not_dropped :
    ¬ chronological (priceData [dupSigA, dupSigB]) ∧
    (priceData [dupSigA, dupSigB]).length = 2 := by
  constructor
  · intro h
    simp [chronological, priceData, dupSigA, dupSigB, priceValid,
      JNum.isValidNum, tsTruthy] at h
  · rfl

/-- C2 amended: the derived priceSeries and rsiSeries keep every valid
record, in input order, with no dropping of duplicate or decreasing
timestamps; consequently each series is strictly increasing in time exactly
when the parsed timestamps of the records surviving its validity filter are
strictly increasing. -/
theorem series_strictly_increasing_iff (signals : List SignalRec) :
    (chronological (priceData signals) ↔
      List.Chain' (fun a b : SignalRec =>
        a.timestamp.getD 0 < b.timestamp.getD 0) (signals.filter priceValid)) ∧
    (chronological (rsiData signals) ↔
      List.Chain' (fun a b : SignalRec =>
        a.timestamp.getD 0 < b.timestamp.getD 0) (signals.filter rsiValid)) := by
  have heq : ∀ ts : Option ℤ, epochSec ts = ((ts.getD 0 : ℤ) : ℚ) / 1000 := by
    intro ts
    cases ts <;> simp [epochSec]
  have hpt : ∀ a b : SignalRec,
      epochSec a.timestamp < epochSec b.timestamp ↔
      a.timestamp.getD 0 < b.timestamp.getD 0 := by
    intro a b
    rw [heq, heq, div_lt_div_iff_of_pos_right]
    · exact Int.cast_lt
    · norm_num
  constructor
  · unfold chronological priceData
    rw [List.chain'_map]
    exact ⟨fun h => h.imp fun _ _ hab => (hpt _ _).mp hab,
           fun h => h.imp fun _ _ hab => (hpt _ _).mpr hab⟩
  · unfold chronological rsiData
    rw [List.chain'_map]
    exact ⟨fun h => h.imp fun _ _ hab => (hpt _ _).mp hab,
           fun h => h.imp fun _ _ hab => (hpt _ _).mpr hab⟩

/-- C3 counterexample: switching the selection from run R1 directly to run
R2 leaves R1's fetched data fully in place (no discard happens), and when
R2's signals response then lands, the state holds R2's signals next to R1's
trades — a mixed frame the claim rules out. -/
theorem run_switch_keeps_stale_data :
    selectRunEffect "R2" demoAppR1 = demoAppR1 ∧
    demoAppR1.signals = [demoR1Sig] ∧
    (applySignalsResponse [demoR2Sig]
      (selectRunEffect "R2" demoAppR1)).signals = [demoR2Sig] ∧
    (applySignalsResponse [demoR2Sig]
      (selectRunEffect "R2" demoAppR1)).trades = [demoR1Trade] :=
  ⟨rfl, rfl, rfl, rfl⟩

/-- C3 amended: previously derived data is discarded only when the selection
is cleared (empty run id); on a change to a different non-empty run id the
prior state is kept unchanged, and each arriving response replaces only its
own slice, so intermediate states can mix the two runs' data. -/
theorem run_selection_behavior (rid : String) (st : AppState)
    (d : List SignalRec) :
    (rid ≠ "" → selectRunEffect rid st = st ∧
      (applySignalsResponse d (selectRunEffect rid st)).trades = st.trades ∧
      (applySignalsResponse d (selectRunEffect rid st)).metrics = st.metrics ∧
      (applySignalsResponse d (selectRunEffect rid st)).signals = d) ∧
    (rid = "" → selectRunEffect rid st = clearedApp) := by
  constructor
  · intro h
    have hsel : selectRunEffect rid st = st := by
      simp [selectRunEffect, h]
    rw [hsel]
    exact ⟨rfl, rfl, rfl, rfl⟩
  · intro h
    subst h
    rfl

/-- C3 witness: the amended theorem at a concrete non-empty run id. -/
theorem run_selection_behavior_witness :
    selectRunEffect "R1" demoAppR1 = demoAppR1 :=
  ((run_selection_behavior "R1" demoAppR1 []).1 (by decide)).1

/-- C4: the claim (and spec section 4.4/9) requires the propagating guard to
be released on every exit path of a broadcast, including a throwing target
update; the code has no try/finally, so at this concrete broadcast — source
price pane, trade-pane target throwing — the callback exits with the guard
still true, and every later notification is permanently ignored. -/
theorem guard_leak_on_target_throw :
    handleRangeChange demoFails Pane.price demoSyncReady
      = ({ demoSyncReady with propagating := true }, false) ∧
    handleRangeChange demoFails Pane.price
        { demoSyncReady with propagating := true }
      = ({ demoSyncReady with propagating := true }, true) :=
  ⟨rfl, rfl⟩

/-- C5: the synchronizer callback protocol, symmetric in the source pane: a
notification arriving with the guard up is ignored outright (state returned
untouched, nothing applied, no re-broadcast); with the guard down and a
readable source range, and every target update succeeding, the source range
is applied identically to both other panes and the guard ends false. -/
theorem sync_protocol (fails : Pane → Bool) (src : Pane) (st : SyncState)
    (r : LogicalRange) :
    (st.propagating = true → handleRangeChange fails src st = (st, true)) ∧
    (st.propagating = false → st.range src = some r →
      (∀ p, fails p = false) →
      (handleRangeChange fails src st).2 = true ∧
      (handleRangeChange fails src st).1.propagating = false ∧
      ∀ p, (handleRangeChange fails src st).1.range p = some r) := by
  constructor
  · intro h
    simp [handleRangeChange, h]
  · intro h hr hf
    obtain ⟨pr, tr, rr, pg⟩ := st
    simp only at h
    subst h
    cases src
    all_goals
      simp only [SyncState.range] at hr
      subst hr
      refine ⟨?_, ?_, fun p => ?_⟩
      case _ => simp [handleRangeChange, SyncState.range, Pane.others,
        applyToTargets, SyncState.setRange, hf]
      case _ => simp [handleRangeChange, SyncState.range, Pane.others,
        applyToTargets, SyncState.setRange, hf]
      case _ => cases p <;> simp [handleRangeChange, SyncState.range,
        Pane.others, applyToTargets, SyncState.setRange, hf]

/-- C5 witness: the protocol theorem at a concrete broadcast from the trade
pane with no failing target. -/
theorem sync_protocol_witness :
    (handleRangeChange noFails Pane.trade demoSyncReady).1.range Pane.price
      = some demoRange2 ∧
    (handleRangeChange noFails Pane.trade demoSyncReady).1.propagating = false := by
  have h := (sync_protocol noFails Pane.trade demoSyncReady demoRange2).2
    rfl rfl (fun _ => rfl)
  exact ⟨h.2.2 Pane.price, h.2.1⟩

end Backtest

